import Mathlib

/-!
Shallow embedding of the bid-to-order settlement engine of the
Anna-Newa marketplace backend (src/controllers/bidController.js and the
Mongoose schemas for Product, Order and User).

Money amounts are embedded as rationals (ℚ); identifiers and instants as
naturals.  Each controller is a pure function from the relevant document
state (plus the request parameters) to the updated state together with an
outcome mirroring the HTTP response the controller sends.  A Mongoose
`save`/`create`/`findByIdAndUpdate` is one atomic write of the returned
document.
-/

namespace AnnaNewa

/-- `postType` enum of the product schema. -/
inductive PostType
  | sell
  | buy
deriving DecidableEq

/-- `bids.status` enum of the product schema. -/
inductive BidStatus
  | pending
  | accepted
  | rejected
deriving DecidableEq

/-- `status` enum of the product schema. -/
inductive ProductStatus
  | active
  | sold
  | expired
  | cancelled
  | purchased
deriving DecidableEq

/-- `paymentMethod` enum shared by the bid sub-schema and the order schema. -/
inductive PaymentMethod
  | cashOnDelivery
  | bankTransfer
  | upi
  | card
deriving DecidableEq

/-- `orderStatus` enum of the order schema. -/
inductive OrderStatus
  | processing
  | completed
  | cancelled
  | refunded
deriving DecidableEq

/-- `deliveryStatus` enum of the order schema. -/
inductive DeliveryStatus
  | pending
  | confirmed
  | shipped
  | outForDelivery
  | delivered
  | cancelled
deriving DecidableEq

/-- `paymentStatus` enum of the order schema. -/
inductive PaymentStatus
  | pending
  | paid
  | failed
  | refunded
deriving DecidableEq

/-- A resolved delivery address as stored in a bid sub-document or an order
(`address`, `city`, `state`, `zipCode`, `country`). -/
structure Address where
  address : String
  city : String
  state : String
  zipCode : String
  country : String
deriving DecidableEq

/-- The `address` sub-document of the user schema
(`street`, `city`, `state`, `zipCode`, `country`); an absent JS field is
embedded as the empty string. -/
structure ProfileAddress where
  street : String
  city : String
  state : String
  zipCode : String
  country : String
deriving DecidableEq

/-- The `deliveryAddress` object of a `placeBid` request body; absent string
fields are embedded as the empty string (both are falsy in JS). -/
structure ProvidedAddress where
  address : String
  city : String
  state : String
  zipCode : String
  country : String
deriving DecidableEq

/-- A bid sub-document of a product (`bids` array entries).  `id` embeds the
Mongo `_id` of the sub-document, `user` the bidder's id. -/
structure Bid where
  id : Nat
  user : Nat
  bidAmount : ℚ
  bidAt : Nat
  status : BidStatus
  deliveryAddress : Address
  paymentMethod : PaymentMethod
deriving DecidableEq

/-- The `bidWinner` sub-document of a product. -/
structure BidWinner where
  user : Nat
  bidAmount : ℚ
  acceptedAt : Nat
deriving DecidableEq

/-- A product (listing) document; only the fields the settlement engine
reads or writes are embedded. -/
structure Product where
  id : Nat
  title : String
  pricePerKg : ℚ
  totalWeight : ℚ
  bids : List Bid
  user : Nat
  postType : PostType
  status : ProductStatus
  bidWinner : Option BidWinner
  soldAt : Option Nat
  companyRevenue : ℚ
deriving DecidableEq

/-- The failure responses of `placeBid` (each is a 4xx JSON response with
`success:false`), in the order the controller checks them. -/
inductive PlaceBidError
  | productNotActive
  | selfBidForbidden
  | bidTooLow
  | bidTooHigh
  | deliveryAddressRequired
  | duplicatePendingBid
deriving DecidableEq

/-- JS `s || d` for strings: the default replaces an empty (falsy) string. -/
def orDefault (s d : String) : String :=
  if s.isEmpty then d else s

/-- The truthiness test
`!deliveryAddress || !deliveryAddress.address || !deliveryAddress.city ||
!deliveryAddress.state || !deliveryAddress.zipCode` guarding bids on
seller posts. -/
def sellAddressMissing : Option ProvidedAddress → Bool
  | none => true
  | some a => a.address.isEmpty || a.city.isEmpty || a.state.isEmpty || a.zipCode.isEmpty

/-- The `finalDeliveryAddress` computation of `placeBid`: seller posts use
the buyer-provided address, buyer posts derive the address from the post
owner's profile. -/
def resolveDeliveryAddress (p : Product) (da : Option ProvidedAddress)
    (ownerProfile : ProfileAddress) : Address :=
  match p.postType with
  | .sell =>
    match da with
    | some a => ⟨a.address, a.city, a.state, a.zipCode, orDefault a.country "India"⟩
    | none => ⟨"", "", "", "", "India"⟩
  | .buy =>
    ⟨ownerProfile.street, ownerProfile.city, ownerProfile.state, ownerProfile.zipCode,
      orDefault ownerProfile.country "India"⟩

/-- `placeBid` (bidController.js).  `newBidId` embeds the Mongo `_id`
generated for the pushed sub-document and `now` the `bidAt` timestamp.
On success the bid is appended and the whole product document is saved
once. -/
def placeBid (p : Product) (bidderId : Nat) (bidAmount : ℚ)
    (deliveryAddress : Option ProvidedAddress) (paymentMethod : PaymentMethod)
    (ownerProfile : ProfileAddress) (newBidId : Nat) (now : Nat) :
    Except PlaceBidError Product :=
  if p.status ≠ ProductStatus.active then
    .error .productNotActive
  else if p.user = bidderId then
    .error .selfBidForbidden
  else if p.postType = PostType.sell ∧ bidAmount ≤ p.pricePerKg then
    .error .bidTooLow
  else if p.postType = PostType.sell ∧ sellAddressMissing deliveryAddress then
    .error .deliveryAddressRequired
  else if p.postType = PostType.buy ∧ p.pricePerKg ≤ bidAmount then
    .error .bidTooHigh
  else if p.bids.any (fun b => b.user == bidderId && b.status == BidStatus.pending) then
    .error .duplicatePendingBid
  else
    .ok { p with
      bids := p.bids ++
        [{ id := newBidId
           user := bidderId
           bidAmount := bidAmount
           bidAt := now
           status := .pending
           deliveryAddress := resolveDeliveryAddress p deliveryAddress ownerProfile
           paymentMethod := paymentMethod }] }

/-- The data object passed to `Order.create` in `acceptBid` (`orderData`).
It carries no `orderStatus`, `deliveryStatus` or `paymentStatus` key. -/
structure OrderData where
  orderNumber : String
  product : Nat
  seller : Nat
  buyer : Nat
  postType : PostType
  quantity : ℚ
  pricePerKg : ℚ
  totalPrice : ℚ
  companyRevenue : ℚ
  sellerEarning : ℚ
  buyerPayment : ℚ
  commissionRate : ℚ
  paymentMethod : PaymentMethod
  sellerLocation : ProfileAddress
  buyerLocation : ProfileAddress
  deliveryAddress : Address
  notes : String
deriving DecidableEq

/-- An order document (order schema). -/
structure Order where
  orderNumber : String
  product : Nat
  seller : Nat
  buyer : Nat
  postType : PostType
  quantity : ℚ
  pricePerKg : ℚ
  totalPrice : ℚ
  companyRevenue : ℚ
  sellerEarning : ℚ
  buyerPayment : ℚ
  commissionRate : ℚ
  paymentMethod : PaymentMethod
  sellerLocation : ProfileAddress
  buyerLocation : ProfileAddress
  deliveryAddress : Address
  notes : String
  paymentStatus : PaymentStatus
  deliveryStatus : DeliveryStatus
  orderStatus : OrderStatus
  deliveredAt : Option Nat
  cancelledAt : Option Nat
  cancellationReason : Option String
  rating : Option Nat
  review : Option String
  reviewedAt : Option Nat
deriving DecidableEq

/-- `Order.create` on an `orderData` that carries no status keys: the order
schema fills `paymentStatus`, `deliveryStatus` and `orderStatus` with their
schema defaults (`Pending`, `Pending`, `Processing`); all other optional
fields start unset. -/
def Order.create (d : OrderData) : Order :=
  { orderNumber := d.orderNumber
    product := d.product
    seller := d.seller
    buyer := d.buyer
    postType := d.postType
    quantity := d.quantity
    pricePerKg := d.pricePerKg
    totalPrice := d.totalPrice
    companyRevenue := d.companyRevenue
    sellerEarning := d.sellerEarning
    buyerPayment := d.buyerPayment
    commissionRate := d.commissionRate
    paymentMethod := d.paymentMethod
    sellerLocation := d.sellerLocation
    buyerLocation := d.buyerLocation
    deliveryAddress := d.deliveryAddress
    notes := d.notes
    paymentStatus := .pending
    deliveryStatus := .pending
    orderStatus := .processing
    deliveredAt := none
    cancelledAt := none
    cancellationReason := none
    rating := none
    review := none
    reviewedAt := none }

/-- `parseFloat(x.toFixed(2))`: round to 2 decimal places (the standard
rounding the spec mandates, half away from zero on the embedded exact
rationals). -/
def round2 (x : ℚ) : ℚ :=
  (round (x * 100) : ℤ) / 100

/-- The financial summary object in the success response of `acceptBid`. -/
structure FinancialSummary where
  totalTransaction : ℚ
  companyRevenue : ℚ
  sellerEarning : ℚ
deriving DecidableEq

/-- The outcomes of `acceptBid`: success (200, with financials), the 403
not-authorized response, the 404 bid-not-found response, and the catch-all
500 response carrying the thrown error's message (`serverError`). -/
inductive AcceptBidResult
  | ok (fin : FinancialSummary)
  | notAuthorized
  | bidNotFound
  | serverError (msg : String)
deriving DecidableEq

/-- The HTTP status code each `acceptBid` outcome is sent with. -/
def AcceptBidResult.httpStatus : AcceptBidResult → Nat
  | .ok _ => 200
  | .notAuthorized => 403
  | .bidNotFound => 404
  | .serverError _ => 500

/-- The single pass of `acceptBid` over `product.bids`: the bid whose `_id`
matches is marked `accepted`, every other bid is marked `rejected`. -/
def markBid (bidId : Nat) (b : Bid) : Bid :=
  if b.id = bidId then { b with status := .accepted } else { b with status := .rejected }

/-- `String(n).padStart(4, '0')`. -/
def pad4 (n : Nat) : String :=
  let s := toString n
  if s.length ≥ 4 then s else String.mk (List.replicate (4 - s.length) '0') ++ s

/-- The order-number generation of `acceptBid`:
`ORD-<date>-<todaysOrders + 1 padded to 4 digits>`. -/
def mkOrderNumber (dateStr : String) (todaysOrders : Nat) : String :=
  "ORD-" ++ dateStr ++ "-" ++ pad4 (todaysOrders + 1)

/-- `acceptBid` (bidController.js).  `orders` embeds the order-store
contents for the current day (so `orders.length` is the
`Order.countDocuments` result), `ownerProfile`/`bidderProfile` the populated
profile addresses, `now` the timestamp, and `orderCreateFailure` injects the
outcome of the `Order.create` call: `some msg` embeds `Order.create`
throwing with that message after `product.save()` already persisted the
settled listing, in which case the catch-all returns the generic 500
response.  The returned triple is the persisted product document, the
order-store contents, and the HTTP outcome. -/
def acceptBid (p : Product) (orders : List Order) (actingUserId : Nat) (bidId : Nat)
    (now : Nat) (dateStr : String) (ownerProfile bidderProfile : ProfileAddress)
    (orderCreateFailure : Option String) :
    Product × List Order × AcceptBidResult :=
  if p.user ≠ actingUserId then
    (p, orders, .notAuthorized)
  else
    match p.bids.find? (fun b => b.id == bidId) with
    | none => (p, orders, .bidNotFound)
    | some bid =>
      let totalPrice := p.totalWeight * bid.bidAmount
      let companyRevenue := totalPrice * (2 / 100)
      let sellerEarning := totalPrice - companyRevenue
      let p1 : Product :=
        { p with
          bids := p.bids.map (markBid bidId)
          bidWinner := some ⟨bid.user, bid.bidAmount, now⟩
          status := if p.postType = PostType.sell then .sold else .purchased
          soldAt := some now
          companyRevenue := companyRevenue }
      match orderCreateFailure with
      | some msg => (p1, orders, .serverError msg)
      | none =>
        let seller := if p.postType = PostType.sell then p.user else bid.user
        let buyer := if p.postType = PostType.sell then bid.user else p.user
        let d : OrderData :=
          { orderNumber := mkOrderNumber dateStr orders.length
            product := p.id
            seller := seller
            buyer := buyer
            postType := p.postType
            quantity := p.totalWeight
            pricePerKg := bid.bidAmount
            totalPrice := totalPrice
            companyRevenue := round2 companyRevenue
            sellerEarning := round2 sellerEarning
            buyerPayment := totalPrice
            commissionRate := 2 / 100
            paymentMethod := bid.paymentMethod
            sellerLocation := ownerProfile
            buyerLocation := bidderProfile
            deliveryAddress := bid.deliveryAddress
            notes := "Order created from post: " ++ p.title }
        (p1, orders ++ [Order.create d],
          .ok ⟨totalPrice, round2 companyRevenue, round2 sellerEarning⟩)

/-- `updateProductStatus` (admin endpoint): `findByIdAndUpdate` writes the
requested status with no transition guard; `runValidators` only enforces
the enum, which the `ProductStatus` type already does. -/
def updateProductStatus (p : Product) (newStatus : ProductStatus) : Product :=
  { p with status := newStatus }

/-- Outcomes of `cancelOrder`: success (200), the 403 not-authorized
response, the 400 already-completed/cancelled response, and the 400
cannot-cancel-delivered response. -/
inductive CancelOrderResult
  | ok
  | notAuthorized
  | alreadyClosed
  | alreadyDelivered
deriving DecidableEq

/-- `cancelOrder` (bidController.js): either counterparty may cancel an
order that is not completed/cancelled and not delivered; the cascaded
update is one `findByIdAndUpdate` write. -/
def cancelOrder (o : Order) (actingUserId : Nat) (cancellationReason : Option String)
    (now : Nat) : Order × CancelOrderResult :=
  if ¬ (o.seller = actingUserId ∨ o.buyer = actingUserId) then
    (o, .notAuthorized)
  else if o.orderStatus = OrderStatus.completed ∨ o.orderStatus = OrderStatus.cancelled then
    (o, .alreadyClosed)
  else if o.deliveryStatus = DeliveryStatus.delivered then
    (o, .alreadyDelivered)
  else
    ({ o with
       orderStatus := .cancelled
       deliveryStatus := .cancelled
       paymentStatus := .refunded
       cancelledAt := some now
       cancellationReason := some (cancellationReason.getD
         (if o.seller = actingUserId then "Cancelled by seller" else "Cancelled by buyer")) },
     .ok)

/-- The `sort({ soldAt: -1 })` insertion step used by `getMyWins`. -/
def insertBySoldAt (x : Product) : List Product → List Product
  | [] => [x]
  | y :: ys =>
    if y.soldAt.getD 0 ≤ x.soldAt.getD 0 then x :: y :: ys else y :: insertBySoldAt x ys

/-- Sort products by `soldAt` descending. -/
def sortBySoldAtDesc : List Product → List Product
  | [] => []
  | x :: xs => insertBySoldAt x (sortBySoldAtDesc xs)

/-- `getMyWins` (bidController.js): the query selects products with
`bidWinner.user = userId` and `status: 'sold'`, sorts by `soldAt`
descending, and paginates with `skip = (page - 1) * limit` and `limit`. -/
def getMyWins (products : List Product) (userId : Nat) (page limit : Nat) :
    List Product :=
  let selected := products.filter fun p =>
    (match p.bidWinner with
     | some w => w.user == userId
     | none => false) &&
    decide (p.status = ProductStatus.sold)
  ((sortBySoldAtDesc selected).drop ((page - 1) * limit)).take limit

/-! ## Concrete fixtures used by counterexamples and witnesses -/

/-- A fully populated profile address. -/
def profA : ProfileAddress := ⟨"12 Farm Road", "Dhaka", "Dhaka", "1000", "Bangladesh"⟩

/-- A fully populated delivery address. -/
def addrA : Address := ⟨"5 Market Lane", "Dhaka", "Dhaka", "1205", "Bangladesh"⟩

/-- A bid whose status is already `rejected` (bid id 1, bidder 2). -/
def bidRejected : Bid := ⟨1, 2, 5, 0, .rejected, addrA, .cashOnDelivery⟩

/-- A pending bid (bid id 1, bidder 2, amount 5). -/
def bidPending : Bid := ⟨1, 2, 5, 0, .pending, addrA, .cashOnDelivery⟩

/-- An active sell listing (owner 7, price 4/kg, 3 kg) whose only bid is
already rejected. -/
def prodNonPending : Product := ⟨10, "rice", 4, 3, [bidRejected], 7, .sell, .active, none, none, 0⟩

theorem prodNonPending_run :
    acceptBid prodNonPending [] 7 1 0 "20251011" profA profA none =
      ((acceptBid prodNonPending [] 7 1 0 "20251011" profA profA none).1,
       (acceptBid prodNonPending [] 7 1 0 "20251011" profA profA none).2.1,
       AcceptBidResult.ok ⟨15, 3 / 10, 147 / 10⟩) := by
  simp [acceptBid, prodNonPending, bidRejected, markBid, Order.create, mkOrderNumber, pad4,
    round2]
  norm_num [round_eq]

/-- `C1` counterexample: the claim says `acceptBid` targeting a bid that is
not `pending` fails and leaves state unchanged.  On `prodNonPending` the
only bid is already `rejected`, the owner (user 7) targets it, and
`acceptBid` nevertheless succeeds and settles the listing. -/
theorem acceptBid_nonpending_bid_cex :
    prodNonPending.bids.map Bid.status = [BidStatus.rejected] ∧
    prodNonPending.status = ProductStatus.active ∧
    (acceptBid prodNonPending [] 7 1 0 "20251011" profA profA none).2.2 =
      AcceptBidResult.ok ⟨15, 3 / 10, 147 / 10⟩ ∧
    (acceptBid prodNonPending [] 7 1 0 "20251011" profA profA none).1.status =
      ProductStatus.sold := by
  refine ⟨rfl, rfl, ?_, rfl⟩
  have h := prodNonPending_run
  exact congrArg (fun t => t.2.2) h

/-- `C1` (amended): `acceptBid` returns a rejection (`notAuthorized` or
`bidNotFound`) and leaves the listing, its bids and the order store
unchanged whenever the acting user is not the listing owner or no bid with
the given id exists on the listing; the current status of the targeted bid
is not checked, so these are the only two rejection conditions. -/
theorem acceptBid_rejects_only_nonowner_or_missing (p : Product) (orders : List Order)
    (actingUserId bidId now : Nat) (dateStr : String) (op bp : ProfileAddress)
    (fail : Option String)
    (h : p.user ≠ actingUserId ∨ ∀ b ∈ p.bids, b.id ≠ bidId) :
    acceptBid p orders actingUserId bidId now dateStr op bp fail =
      (p, orders, .notAuthorized) ∨
    acceptBid p orders actingUserId bidId now dateStr op bp fail =
      (p, orders, .bidNotFound) := by
  rcases h with h | h
  · left
    simp [acceptBid, h]
  · by_cases howner : p.user = actingUserId
    · right
      have hfind : p.bids.find? (fun b => b.id == bidId) = none := by
        rw [List.find?_eq_none]
        intro b hb
        simpa using h b hb
      simp [acceptBid, howner, hfind]
    · left
      simp [acceptBid, howner]

/-- Witness for the amended `C1`: a non-owner (user 9) targeting
`prodNonPending` owned by user 7 is rejected with state unchanged. -/
theorem acceptBid_rejects_only_nonowner_or_missing_witness :
    acceptBid prodNonPending [] 9 1 0 "20251011" profA profA none =
      (prodNonPending, [], .notAuthorized) ∨
    acceptBid prodNonPending [] 9 1 0 "20251011" profA profA none =
      (prodNonPending, [], .bidNotFound) :=
  acceptBid_rejects_only_nonowner_or_missing prodNonPending [] 9 1 0 "20251011" profA profA
    none (Or.inl (by decide))

/-- A sell listing already settled (`sold`), owned by user 7, no bids. -/
def prodSoldFix : Product := ⟨11, "wheat", 4, 3, [], 7, .sell, .sold, none, some 5, 0⟩

/-- An expired sell listing with one pending bid, owned by user 7. -/
def prodExpiredFix : Product := ⟨12, "corn", 4, 3, [bidPending], 7, .sell, .expired, none, none, 0⟩

/-- `C4` counterexample: terminal listing statuses are not preserved.  The
admin product-status update moves a `sold` listing back to `active`, and
`acceptBid` on an `expired` listing settles it to `sold` (its status is
never consulted). -/
theorem status_forward_only_cex :
    prodSoldFix.status = ProductStatus.sold ∧
    (updateProductStatus prodSoldFix ProductStatus.active).status = ProductStatus.active ∧
    prodExpiredFix.status = ProductStatus.expired ∧
    (acceptBid prodExpiredFix [] 7 1 0 "20251011" profA profA none).1.status =
      ProductStatus.sold :=
  ⟨rfl, rfl, rfl, rfl⟩

/-- `C4` (amended): no operation guards listing-status transitions.
`updateProductStatus` writes whatever enum status is requested, whatever
the current status (including `active` from a terminal state), and a
successful `acceptBid` always sets `sold` (sell posts) or `purchased`
(buy posts) regardless of the listing's prior status. -/
theorem status_transitions_unguarded (p : Product) (s : ProductStatus)
    (orders : List Order) (actingUserId bidId now : Nat) (dateStr : String)
    (op bp : ProfileAddress) (fail : Option String) (p' : Product)
    (orders' : List Order) (fin : FinancialSummary)
    (h : acceptBid p orders actingUserId bidId now dateStr op bp fail =
      (p', orders', .ok fin)) :
    (updateProductStatus p s).status = s ∧
    p'.status = (if p.postType = PostType.sell then ProductStatus.sold
      else ProductStatus.purchased) := by
  refine ⟨rfl, ?_⟩
  unfold acceptBid at h
  split at h
  · exact absurd (congrArg (fun t => t.2.2) h) (by simp)
  · split at h
    · exact absurd (congrArg (fun t => t.2.2) h) (by simp)
    · cases fail with
      | some msg => exact absurd (congrArg (fun t => t.2.2) h) (by simp)
      | none =>
        have := congrArg (fun t => t.1.status) h
        simpa using this.symm

/-- Witness for the amended `C4`: accepting the pending bid on the expired
listing `prodExpiredFix` yields status `sold`, and the admin update sets
the requested status. -/
theorem status_transitions_unguarded_witness :
    (updateProductStatus prodExpiredFix ProductStatus.cancelled).status =
      ProductStatus.cancelled ∧
    (acceptBid prodExpiredFix [] 7 1 0 "20251011" profA profA none).1.status =
      (if prodExpiredFix.postType = PostType.sell then ProductStatus.sold
        else ProductStatus.purchased) :=
  status_transitions_unguarded prodExpiredFix ProductStatus.cancelled [] 7 1 0 "20251011"
    profA profA none (acceptBid prodExpiredFix [] 7 1 0 "20251011" profA profA none).1
    (acceptBid prodExpiredFix [] 7 1 0 "20251011" profA profA none).2.1
    ⟨15, 3 / 10, 147 / 10⟩
    (by simp [acceptBid, prodExpiredFix, bidPending, markBid, Order.create, mkOrderNumber,
          pad4, round2]
        norm_num [round_eq])

/-- An active sell listing with one pending bid, owned by user 7. -/
def prodPendingFix : Product := ⟨13, "rice", 4, 3, [bidPending], 7, .sell, .active, none, none, 0⟩

/-- `C5` counterexample: when order creation fails after the listing
mutation is persisted, `acceptBid` answers with the undifferentiated
catch-all 500 response carrying the thrown message — the same shape as any
other internal error — while the listing is left `sold` and the order
store holds no corresponding order; no distinct reconciliation error is
surfaced. -/
theorem reconciliation_error_cex :
    (acceptBid prodPendingFix [] 7 1 0 "20251011" profA profA (some "db down")).2.2 =
      AcceptBidResult.serverError "db down" ∧
    ((acceptBid prodPendingFix [] 7 1 0 "20251011" profA profA
      (some "db down")).2.2).httpStatus = 500 ∧
    (acceptBid prodPendingFix [] 7 1 0 "20251011" profA profA (some "db down")).1.status =
      ProductStatus.sold ∧
    (acceptBid prodPendingFix [] 7 1 0 "20251011" profA profA (some "db down")).2.1 = [] :=
  ⟨rfl, rfl, rfl, rfl⟩

/-- `C5` (amended): if `Order.create` fails after `product.save()` already
persisted the settled listing, `acceptBid` returns the generic 500 failure
with the propagated error message (the same catch-all used for every
thrown error), the order store is unchanged, and the listing stays
persisted as settled with its bids marked and `bidWinner` set — no
distinct reconciliation error exists in the code. -/
theorem acceptBid_generic_error_on_order_failure (p : Product) (orders : List Order)
    (actingUserId bidId now : Nat) (dateStr : String) (op bp : ProfileAddress)
    (msg : String) (bid : Bid)
    (howner : p.user = actingUserId)
    (hfind : p.bids.find? (fun b => b.id == bidId) = some bid) :
    acceptBid p orders actingUserId bidId now dateStr op bp (some msg) =
      ({ p with
         bids := p.bids.map (markBid bidId)
         bidWinner := some ⟨bid.user, bid.bidAmount, now⟩
         status := if p.postType = PostType.sell then ProductStatus.sold
           else ProductStatus.purchased
         soldAt := some now
         companyRevenue := p.totalWeight * bid.bidAmount * (2 / 100) },
       orders, .serverError msg) := by
  simp [acceptBid, howner, hfind]

/-- Witness for the amended `C5`: the owner accepts the pending bid on
`prodPendingFix` while order creation fails with message `db down`. -/
theorem acceptBid_generic_error_on_order_failure_witness :
    acceptBid prodPendingFix [] 7 1 0 "20251011" profA profA (some "db down") =
      ({ prodPendingFix with
         bids := prodPendingFix.bids.map (markBid 1)
         bidWinner := some ⟨bidPending.user, bidPending.bidAmount, 0⟩
         status := if prodPendingFix.postType = PostType.sell then ProductStatus.sold
           else ProductStatus.purchased
         soldAt := some 0
         companyRevenue := prodPendingFix.totalWeight * bidPending.bidAmount * (2 / 100) },
       [], .serverError "db down") :=
  acceptBid_generic_error_on_order_failure prodPendingFix [] 7 1 0 "20251011" profA profA
    "db down" bidPending rfl rfl

/-- On the image of the single marking pass of `acceptBid`, the number of
`accepted` bids equals the number of bids whose id matches the target. -/
theorem markBid_accepted_count (l : List Bid) (bidId : Nat) :
    ((l.map (markBid bidId)).filter (fun b => b.status == BidStatus.accepted)).length =
      l.countP (fun b => b.id == bidId) := by
  induction l with
  | nil => rfl
  | cons b l ih =>
    by_cases hb : b.id = bidId
    · simp [markBid, hb, List.countP_cons, ih]
    · simp [markBid, hb, List.countP_cons, ih]

/-- When the bid ids of a listing are pairwise distinct and some bid with
the target id is present, exactly one list entry matches the target id. -/
theorem countP_target_eq_one (l : List Bid) (bidId : Nat)
    (hnd : (l.map Bid.id).Nodup) (b : Bid) (hmem : b ∈ l) (hid : b.id = bidId) :
    l.countP (fun x => x.id == bidId) = 1 := by
  induction l with
  | nil => cases hmem
  | cons a l ih =>
    rw [List.map_cons, List.nodup_cons] at hnd
    rcases List.mem_cons.mp hmem with rfl | hmem'
    · have hzero : l.countP (fun x => x.id == bidId) = 0 := by
        rw [List.countP_eq_zero]
        intro x hx
        simp only [beq_iff_eq]
        intro hxid
        refine hnd.1 ?_
        rw [hid, ← hxid]
        exact List.mem_map_of_mem Bid.id hx
      simp [List.countP_cons, hid, hzero]
    · have hone := ih hnd.2 hmem'
      have hhead : ¬ a.id = bidId := by
        intro ha
        exact hnd.1 (ha.symm ▸ hid ▸ List.mem_map_of_mem Bid.id hmem')
      simp [List.countP_cons, hhead, hone]

/-- `C2`: after a successful `acceptBid` (the marking pass and the listing
update are one `product.save()` write, so no intermediate state is ever
persisted), exactly one bid on the listing is `accepted`, it is the
targeted bid, and every bid with a different id is `rejected`. -/
theorem acceptBid_exclusive_acceptance (p : Product) (orders : List Order)
    (actingUserId bidId now : Nat) (dateStr : String) (op bp : ProfileAddress)
    (fail : Option String) (p' : Product) (orders' : List Order) (fin : FinancialSummary)
    (hnd : (p.bids.map Bid.id).Nodup)
    (h : acceptBid p orders actingUserId bidId now dateStr op bp fail =
      (p', orders', .ok fin)) :
    (p'.bids.filter (fun b => b.status == BidStatus.accepted)).length = 1 ∧
    (∀ b ∈ p'.bids, (b.id = bidId → b.status = BidStatus.accepted) ∧
      (b.id ≠ bidId → b.status = BidStatus.rejected)) ∧
    ∃ b ∈ p'.bids, b.id = bidId := by
  unfold acceptBid at h
  split at h
  · exact absurd (congrArg (fun t => t.2.2) h) (by simp)
  · split at h
    · exact absurd (congrArg (fun t => t.2.2) h) (by simp)
    · rename_i bid hfind
      cases fail with
      | some msg => exact absurd (congrArg (fun t => t.2.2) h) (by simp)
      | none =>
        have hbids : p'.bids = p.bids.map (markBid bidId) := by
          have := congrArg (fun t => t.1.bids) h
          simpa using this.symm
        have hmem : bid ∈ p.bids := List.mem_of_find?_eq_some hfind
        have hid : bid.id = bidId := by
          have := List.find?_some hfind
          simpa using this
        refine ⟨?_, ?_, ?_⟩
        · rw [hbids, markBid_accepted_count]
          exact countP_target_eq_one p.bids bidId hnd bid hmem hid
        · intro b hb
          rw [hbids] at hb
          obtain ⟨a, _, rfl⟩ := List.mem_map.mp hb
          by_cases ha : a.id = bidId
          · refine ⟨fun _ => by simp [markBid, ha], fun hcontra => absurd ?_ hcontra⟩
            simp [markBid, ha]
          · refine ⟨fun hcontra => ?_, fun _ => by simp [markBid, ha]⟩
            rw [show (markBid bidId a).id = a.id by simp [markBid, ha]] at hcontra
            exact absurd hcontra ha
        · refine ⟨markBid bidId bid, ?_, ?_⟩
          · rw [hbids]
            exact List.mem_map_of_mem (markBid bidId) hmem
          · simp [markBid, hid]

/-- A second pending bid (bid id 2, bidder 3, amount 6). -/
def bidPending2 : Bid := ⟨2, 3, 6, 0, .pending, addrA, .cashOnDelivery⟩

/-- An active sell listing with two pending bids, owned by user 7. -/
def prodTwoBids : Product :=
  ⟨14, "rice", 4, 2, [bidPending, bidPending2], 7, .sell, .active, none, none, 0⟩

/-- Witness for `C2`: the owner accepts bid 1 on a listing with two pending
bids; afterwards exactly one bid is accepted and the sibling is rejected. -/
theorem acceptBid_exclusive_acceptance_witness :
    ((acceptBid prodTwoBids [] 7 1 0 "20251011" profA profA none).1.bids.filter
      (fun b => b.status == BidStatus.accepted)).length = 1 ∧
    (∀ b ∈ (acceptBid prodTwoBids [] 7 1 0 "20251011" profA profA none).1.bids,
      (b.id = 1 → b.status = BidStatus.accepted) ∧
      (b.id ≠ 1 → b.status = BidStatus.rejected)) ∧
    ∃ b ∈ (acceptBid prodTwoBids [] 7 1 0 "20251011" profA profA none).1.bids, b.id = 1 :=
  acceptBid_exclusive_acceptance prodTwoBids [] 7 1 0 "20251011" profA profA none
    (acceptBid prodTwoBids [] 7 1 0 "20251011" profA profA none).1
    (acceptBid prodTwoBids [] 7 1 0 "20251011" profA profA none).2.1
    ⟨10, 2 / 10, 98 / 10⟩ (by decide)
    (by simp [acceptBid, prodTwoBids, bidPending, bidPending2, markBid, Order.create,
          mkOrderNumber, pad4, round2]
        norm_num [round_eq])

/-- A pending bid of 1/4 per kg (bid id 1, bidder 2). -/
def bidQuarter : Bid := ⟨1, 2, 1 / 4, 0, .pending, addrA, .cashOnDelivery⟩

/-- An active sell listing of 3 kg with the 1/4-per-kg pending bid:
settling it gives totalAmount 0.75, commission 0.015 and seller net 0.735,
both of which must be rounded. -/
def prodQuarter : Product := ⟨16, "herbs", 4, 3, [bidQuarter], 7, .sell, .active, none, none, 0⟩

/-- `C3` counterexample: the order created for `prodQuarter` has
`totalPrice = 0.75`, `companyRevenue = round2 0.015 = 0.02` and
`sellerEarning = round2 0.735 = 0.74`; the two roundings are independent,
so `commissionAmount + sellerNetAmount = 0.76 ≠ 0.75` and
`sellerNetAmount ≠ totalAmount − commissionAmount`. -/
theorem order_money_conservation_cex :
    ((acceptBid prodQuarter [] 7 1 0 "20251011" profA profA none).2.1.map
      (fun o => (o.totalPrice, o.companyRevenue, o.sellerEarning))) =
      [(3 / 4, 2 / 100, 74 / 100)] ∧
    (2 / 100 : ℚ) + 74 / 100 ≠ 3 / 4 ∧
    (74 / 100 : ℚ) ≠ 3 / 4 - 2 / 100 := by
  refine ⟨?_, by norm_num, by norm_num⟩
  simp [acceptBid, prodQuarter, bidQuarter, markBid, Order.create, mkOrderNumber, pad4,
    round2]
  norm_num [round_eq]

/-- Rounding to two decimals is the identity on amounts that are an exact
number of cents. -/
theorem round2_eq_self {x : ℚ} {n : ℤ} (h : x * 100 = (n : ℚ)) : round2 x = x := by
  unfold round2
  rw [h, round_intCast, div_eq_iff (by norm_num : (100 : ℚ) ≠ 0)]
  exact h.symm

/-- `C3` (amended): the order created by settlement carries
`commissionAmount = round2(totalAmount × 0.02)` and, independently,
`sellerNetAmount = round2(totalAmount − totalAmount × 0.02)` (not
`totalAmount − commissionAmount`); whenever `totalAmount × 0.02` is an
exact number of cents (equivalently `2 × totalAmount` is an integer) both
roundings are exact and `commissionAmount + sellerNetAmount = totalAmount`
holds, but not in general. -/
theorem order_money_conservation_amended (p : Product) (orders : List Order)
    (actingUserId bidId now : Nat) (dateStr : String) (op bp : ProfileAddress)
    (fail : Option String) (p' : Product) (orders' : List Order) (fin : FinancialSummary)
    (o : Order) (n : ℤ)
    (h : acceptBid p orders actingUserId bidId now dateStr op bp fail =
      (p', orders', .ok fin))
    (ho : orders' = orders ++ [o])
    (hn : o.totalPrice * 2 = (n : ℚ)) :
    o.companyRevenue = round2 (o.totalPrice * (2 / 100)) ∧
    o.sellerEarning = round2 (o.totalPrice - o.totalPrice * (2 / 100)) ∧
    o.buyerPayment = o.totalPrice ∧
    o.companyRevenue + o.sellerEarning = o.totalPrice := by
  unfold acceptBid at h
  split at h
  · exact absurd (congrArg (fun t => t.2.2) h) (by simp)
  · split at h
    · exact absurd (congrArg (fun t => t.2.2) h) (by simp)
    · rename_i bid hfind
      cases fail with
      | some msg => exact absurd (congrArg (fun t => t.2.2) h) (by simp)
      | none =>
        have horders : orders' = orders ++ [Order.create
            { orderNumber := mkOrderNumber dateStr orders.length
              product := p.id
              seller := if p.postType = PostType.sell then p.user else bid.user
              buyer := if p.postType = PostType.sell then bid.user else p.user
              postType := p.postType
              quantity := p.totalWeight
              pricePerKg := bid.bidAmount
              totalPrice := p.totalWeight * bid.bidAmount
              companyRevenue := round2 (p.totalWeight * bid.bidAmount * (2 / 100))
              sellerEarning := round2 (p.totalWeight * bid.bidAmount -
                p.totalWeight * bid.bidAmount * (2 / 100))
              buyerPayment := p.totalWeight * bid.bidAmount
              commissionRate := 2 / 100
              paymentMethod := bid.paymentMethod
              sellerLocation := op
              buyerLocation := bp
              deliveryAddress := bid.deliveryAddress
              notes := "Order created from post: " ++ p.title }] := by
          have h21 := congrArg (fun t => t.2.1) h
          simp only at h21
          rw [← h21]
        have hov : o = Order.create
            { orderNumber := mkOrderNumber dateStr orders.length
              product := p.id
              seller := if p.postType = PostType.sell then p.user else bid.user
              buyer := if p.postType = PostType.sell then bid.user else p.user
              postType := p.postType
              quantity := p.totalWeight
              pricePerKg := bid.bidAmount
              totalPrice := p.totalWeight * bid.bidAmount
              companyRevenue := round2 (p.totalWeight * bid.bidAmount * (2 / 100))
              sellerEarning := round2 (p.totalWeight * bid.bidAmount -
                p.totalWeight * bid.bidAmount * (2 / 100))
              buyerPayment := p.totalWeight * bid.bidAmount
              commissionRate := 2 / 100
              paymentMethod := bid.paymentMethod
              sellerLocation := op
              buyerLocation := bp
              deliveryAddress := bid.deliveryAddress
              notes := "Order created from post: " ++ p.title } := by
          have := ho.symm.trans horders
          have hsingle := List.append_cancel_left this
          simpa using hsingle
        subst hov
        simp only [Order.create] at hn
        have hc : round2 (p.totalWeight * bid.bidAmount * (2 / 100)) =
            p.totalWeight * bid.bidAmount * (2 / 100) := by
          refine round2_eq_self (n := n) ?_
          rw [← hn]
          ring
        have hs : round2 (p.totalWeight * bid.bidAmount -
            p.totalWeight * bid.bidAmount * (2 / 100)) =
            p.totalWeight * bid.bidAmount - p.totalWeight * bid.bidAmount * (2 / 100) := by
          refine round2_eq_self (n := 49 * n) ?_
          push_cast
          rw [← hn]
          ring
        refine ⟨rfl, rfl, rfl, ?_⟩
        simp only [Order.create]
        rw [hc, hs]
        ring

/-- The pending bid of the spec scenario: 55 per kg (bid id 1, bidder 2). -/
def bidScenario : Bid := ⟨1, 2, 55, 0, .pending, addrA, .cashOnDelivery⟩

/-- The spec scenario listing: posted at 50/kg, 100 kg, sell direction. -/
def prodScenario : Product :=
  ⟨15, "paddy", 50, 100, [bidScenario], 7, .sell, .active, none, none, 0⟩

/-- The order `acceptBid` creates for the spec scenario: totalAmount 5500,
commission 110, seller net 5390. -/
def orderScenario : Order :=
  { orderNumber := "ORD-20251011-0001"
    product := 15
    seller := 7
    buyer := 2
    postType := .sell
    quantity := 100
    pricePerKg := 55
    totalPrice := 5500
    companyRevenue := 110
    sellerEarning := 5390
    buyerPayment := 5500
    commissionRate := 2 / 100
    paymentMethod := .cashOnDelivery
    sellerLocation := profA
    buyerLocation := profA
    deliveryAddress := addrA
    notes := "Order created from post: paddy"
    paymentStatus := .pending
    deliveryStatus := .pending
    orderStatus := .processing
    deliveredAt := none
    cancelledAt := none
    cancellationReason := none
    rating := none
    review := none
    reviewedAt := none }

/-- Witness for the amended `C3`: in the spec scenario the total 5500 is an
exact multiple of half a unit, so commission 110 and seller net 5390 add
back to 5500. -/
theorem order_money_conservation_amended_witness :
    orderScenario.companyRevenue = round2 (orderScenario.totalPrice * (2 / 100)) ∧
    orderScenario.sellerEarning =
      round2 (orderScenario.totalPrice - orderScenario.totalPrice * (2 / 100)) ∧
    orderScenario.buyerPayment = orderScenario.totalPrice ∧
    orderScenario.companyRevenue + orderScenario.sellerEarning = orderScenario.totalPrice :=
  order_money_conservation_amended prodScenario [] 7 1 0 "20251011" profA profA none
    (acceptBid prodScenario [] 7 1 0 "20251011" profA profA none).1
    (acceptBid prodScenario [] 7 1 0 "20251011" profA profA none).2.1
    ⟨5500, 110, 5390⟩ orderScenario 11000
    (by simp [acceptBid, prodScenario, bidScenario, markBid, Order.create, mkOrderNumber,
          pad4, round2]
        norm_num [round_eq])
    (by simp [acceptBid, prodScenario, bidScenario, markBid, Order.create, mkOrderNumber,
          pad4, round2, orderScenario, profA, addrA]
        norm_num [round_eq]
        rfl)
    (by norm_num [orderScenario])

/-- `C6`: for a bid on an active listing by a non-owner, the
direction-dependent price rule of `placeBid` holds: on a sell post the bid
is rejected with the price reason exactly when the amount is not strictly
greater than the posted price, on a buy post exactly when it is not
strictly less; consequently every successfully placed bid outbids
(sell) or underbids (buy) the posted price. -/
theorem placeBid_price_rule (p : Product) (bidderId : Nat) (amount : ℚ)
    (da : Option ProvidedAddress) (pm : PaymentMethod) (op : ProfileAddress)
    (newBidId now : Nat)
    (hactive : p.status = ProductStatus.active) (howner : p.user ≠ bidderId) :
    (p.postType = PostType.sell →
      (placeBid p bidderId amount da pm op newBidId now = .error .bidTooLow ↔
        amount ≤ p.pricePerKg)) ∧
    (p.postType = PostType.buy →
      (placeBid p bidderId amount da pm op newBidId now = .error .bidTooHigh ↔
        p.pricePerKg ≤ amount)) ∧
    ∀ p', placeBid p bidderId amount da pm op newBidId now = .ok p' →
      (p.postType = PostType.sell → p.pricePerKg < amount) ∧
      (p.postType = PostType.buy → amount < p.pricePerKg) := by
  unfold placeBid
  rw [if_neg (by simp [hactive]), if_neg howner]
  cases hpt : p.postType with
  | sell =>
    refine ⟨fun _ => ?_, fun hbuy => PostType.noConfusion hbuy,
      fun p' hok => ⟨fun _ => ?_, fun hbuy => PostType.noConfusion hbuy⟩⟩
    · by_cases hle : amount ≤ p.pricePerKg
      · simp [hle]
      · split_ifs <;> simp_all
    · by_cases hle : amount ≤ p.pricePerKg
      · simp [hle] at hok
      · exact lt_of_not_le hle
  | buy =>
    refine ⟨fun hsell => PostType.noConfusion hsell, fun _ => ?_,
      fun p' hok => ⟨fun hsell => PostType.noConfusion hsell, fun _ => ?_⟩⟩
    · by_cases hge : p.pricePerKg ≤ amount
      · simp [hge]
      · split_ifs <;> simp_all
    · by_cases hge : p.pricePerKg ≤ amount
      · simp [hge] at hok
      · exact lt_of_not_le hge

/-- Witness for `C6`: on an active sell listing posted at 4/kg owned by
user 7, bidder 2's bid of 3 is rejected by the price rule. -/
theorem placeBid_price_rule_witness :
    (prodPendingFix.postType = PostType.sell →
      (placeBid prodPendingFix 2 3 (some ⟨"5 Market Lane", "Dhaka", "Dhaka", "1205", ""⟩)
          PaymentMethod.cashOnDelivery profA 9 1 = .error .bidTooLow ↔
        (3 : ℚ) ≤ prodPendingFix.pricePerKg)) ∧
    (prodPendingFix.postType = PostType.buy →
      (placeBid prodPendingFix 2 3 (some ⟨"5 Market Lane", "Dhaka", "Dhaka", "1205", ""⟩)
          PaymentMethod.cashOnDelivery profA 9 1 = .error .bidTooHigh ↔
        prodPendingFix.pricePerKg ≤ (3 : ℚ))) ∧
    ∀ p', placeBid prodPendingFix 2 3 (some ⟨"5 Market Lane", "Dhaka", "Dhaka", "1205", ""⟩)
        PaymentMethod.cashOnDelivery profA 9 1 = .ok p' →
      (prodPendingFix.postType = PostType.sell → prodPendingFix.pricePerKg < (3 : ℚ)) ∧
      (prodPendingFix.postType = PostType.buy → (3 : ℚ) < prodPendingFix.pricePerKg) :=
  placeBid_price_rule prodPendingFix 2 3 (some ⟨"5 Market Lane", "Dhaka", "Dhaka", "1205", ""⟩)
    PaymentMethod.cashOnDelivery profA 9 1 rfl (by decide)

/-- `C10`: a successful `placeBid` only appends one new `pending` bid (with
the resolved delivery address) at the end of the bid sequence; every other
listing field — posted price, quantity, status, owner, winning bid,
commission — and every previously existing bid is unchanged. -/
theorem placeBid_appends_single_pending (p : Product) (bidderId : Nat) (amount : ℚ)
    (da : Option ProvidedAddress) (pm : PaymentMethod) (op : ProfileAddress)
    (newBidId now : Nat) (p' : Product)
    (h : placeBid p bidderId amount da pm op newBidId now = .ok p') :
    p'.bids = p.bids ++ [⟨newBidId, bidderId, amount, now, .pending,
      resolveDeliveryAddress p da op, pm⟩] ∧
    p'.id = p.id ∧ p'.title = p.title ∧ p'.pricePerKg = p.pricePerKg ∧
    p'.totalWeight = p.totalWeight ∧ p'.user = p.user ∧ p'.postType = p.postType ∧
    p'.status = p.status ∧ p'.bidWinner = p.bidWinner ∧ p'.soldAt = p.soldAt ∧
    p'.companyRevenue = p.companyRevenue := by
  unfold placeBid at h
  split_ifs at h
  all_goals simp only [Except.ok.injEq] at h
  subst h
  exact ⟨rfl, rfl, rfl, rfl, rfl, rfl, rfl, rfl, rfl, rfl, rfl⟩

/-- Witness for `C10`: bidder 3 places a valid bid of 6 on the active sell
listing `prodPendingFix`; the bid list grows by exactly that pending bid
and all other fields stay the same. -/
theorem placeBid_appends_single_pending_witness :
    (placeBid prodPendingFix 3 6 (some ⟨"9 Hill Street", "Khulna", "Khulna", "9000", ""⟩)
        PaymentMethod.upi profA 9 1).toOption.map Product.bids =
      some (prodPendingFix.bids ++ [⟨9, 3, 6, 1, .pending,
        resolveDeliveryAddress prodPendingFix
          (some ⟨"9 Hill Street", "Khulna", "Khulna", "9000", ""⟩) profA,
        PaymentMethod.upi⟩]) ∧
    (placeBid prodPendingFix 3 6 (some ⟨"9 Hill Street", "Khulna", "Khulna", "9000", ""⟩)
        PaymentMethod.upi profA 9 1).toOption.map Product.status =
      some prodPendingFix.status := by
  have h : placeBid prodPendingFix 3 6
      (some ⟨"9 Hill Street", "Khulna", "Khulna", "9000", ""⟩) PaymentMethod.upi profA 9 1 =
      .ok { prodPendingFix with
        bids := prodPendingFix.bids ++ [⟨9, 3, 6, 1, .pending,
          resolveDeliveryAddress prodPendingFix
            (some ⟨"9 Hill Street", "Khulna", "Khulna", "9000", ""⟩) profA,
          PaymentMethod.upi⟩] } := by
    rfl
  have hc := placeBid_appends_single_pending prodPendingFix 3 6
    (some ⟨"9 Hill Street", "Khulna", "Khulna", "9000", ""⟩) PaymentMethod.upi profA 9 1
    _ h
  rw [h]
  exact ⟨congrArg some hc.1, congrArg some hc.2.2.2.2.2.2.2.1⟩

/-- `C7`: `cancelOrder` succeeds exactly when the actor is the order's
seller or buyer, the order status is neither `Completed` nor `Cancelled`,
and the delivery status is not `Delivered`; on success it applies the
cascaded update (`Cancelled`/`Cancelled`/`Refunded` plus `cancelledAt`) as
one write, and on any failed precondition the order is unchanged. -/
theorem cancelOrder_spec (o : Order) (actor : Nat) (reason : Option String) (now : Nat) :
    (¬ (o.seller = actor ∨ o.buyer = actor) →
      cancelOrder o actor reason now = (o, .notAuthorized)) ∧
    ((o.seller = actor ∨ o.buyer = actor) →
      (o.orderStatus = OrderStatus.completed ∨ o.orderStatus = OrderStatus.cancelled) →
      cancelOrder o actor reason now = (o, .alreadyClosed)) ∧
    ((o.seller = actor ∨ o.buyer = actor) →
      ¬ (o.orderStatus = OrderStatus.completed ∨ o.orderStatus = OrderStatus.cancelled) →
      o.deliveryStatus = DeliveryStatus.delivered →
      cancelOrder o actor reason now = (o, .alreadyDelivered)) ∧
    ((o.seller = actor ∨ o.buyer = actor) →
      ¬ (o.orderStatus = OrderStatus.completed ∨ o.orderStatus = OrderStatus.cancelled) →
      o.deliveryStatus ≠ DeliveryStatus.delivered →
      cancelOrder o actor reason now =
        ({ o with
           orderStatus := .cancelled
           deliveryStatus := .cancelled
           paymentStatus := .refunded
           cancelledAt := some now
           cancellationReason := some (reason.getD
             (if o.seller = actor then "Cancelled by seller" else "Cancelled by buyer")) },
         .ok)) ∧
    ((cancelOrder o actor reason now).2 ≠ CancelOrderResult.ok →
      (cancelOrder o actor reason now).1 = o) := by
  unfold cancelOrder
  refine ⟨fun h1 => by rw [if_pos h1],
    fun h1 h2 => by rw [if_neg (not_not_intro h1), if_pos h2],
    fun h1 h2 h3 => by rw [if_neg (not_not_intro h1), if_neg h2, if_pos h3],
    fun h1 h2 h3 => by rw [if_neg (not_not_intro h1), if_neg h2, if_neg h3],
    ?_⟩
  split_ifs <;> simp

/-- Witness for `C7`: the buyer (user 2) cancels the processing, undelivered
order `orderScenario`; the cascaded update is applied. -/
theorem cancelOrder_spec_witness :
    cancelOrder orderScenario 2 none 9 =
      ({ orderScenario with
         orderStatus := .cancelled
         deliveryStatus := .cancelled
         paymentStatus := .refunded
         cancelledAt := some 9
         cancellationReason := some ((none : Option String).getD
           (if orderScenario.seller = 2 then "Cancelled by seller"
             else "Cancelled by buyer")) },
       .ok) :=
  (cancelOrder_spec orderScenario 2 none 9).2.2.2.1 (Or.inr rfl) (by decide) (by decide)

/-- Every order created by a successful `acceptBid` is `Order.create` of
some `orderData`; in particular its status fields are the schema
defaults. -/
theorem exists_orderData_of_acceptBid_ok (p : Product) (orders : List Order)
    (actingUserId bidId now : Nat) (dateStr : String) (op bp : ProfileAddress)
    (fail : Option String) (p' : Product) (orders' : List Order) (fin : FinancialSummary)
    (h : acceptBid p orders actingUserId bidId now dateStr op bp fail =
      (p', orders', .ok fin)) :
    ∃ d : OrderData, orders' = orders ++ [Order.create d] := by
  unfold acceptBid at h
  split at h
  · exact absurd (congrArg (fun t => t.2.2) h) (by simp)
  · split at h
    · exact absurd (congrArg (fun t => t.2.2) h) (by simp)
    · rename_i bid hfind
      cases fail with
      | some msg => exact absurd (congrArg (fun t => t.2.2) h) (by simp)
      | none =>
        refine ⟨{ orderNumber := mkOrderNumber dateStr orders.length
                  product := p.id
                  seller := if p.postType = PostType.sell then p.user else bid.user
                  buyer := if p.postType = PostType.sell then bid.user else p.user
                  postType := p.postType
                  quantity := p.totalWeight
                  pricePerKg := bid.bidAmount
                  totalPrice := p.totalWeight * bid.bidAmount
                  companyRevenue := round2 (p.totalWeight * bid.bidAmount * (2 / 100))
                  sellerEarning := round2 (p.totalWeight * bid.bidAmount -
                    p.totalWeight * bid.bidAmount * (2 / 100))
                  buyerPayment := p.totalWeight * bid.bidAmount
                  commissionRate := 2 / 100
                  paymentMethod := bid.paymentMethod
                  sellerLocation := op
                  buyerLocation := bp
                  deliveryAddress := bid.deliveryAddress
                  notes := "Order created from post: " ++ p.title }, ?_⟩
        have h21 := congrArg (fun t => t.2.1) h
        simp only at h21
        rw [← h21]

/-- `C8`: every order created by `acceptBid` starts with
`orderStatus = Processing`, `deliveryStatus = Pending` and
`paymentStatus = Pending`: the `orderData` literal sets none of these three
keys, so the schema defaults apply regardless of listing, bid or
parties. -/
theorem new_order_default_statuses (p : Product) (orders : List Order)
    (actingUserId bidId now : Nat) (dateStr : String) (op bp : ProfileAddress)
    (fail : Option String) (p' : Product) (orders' : List Order) (fin : FinancialSummary)
    (o : Order)
    (h : acceptBid p orders actingUserId bidId now dateStr op bp fail =
      (p', orders', .ok fin))
    (ho : orders' = orders ++ [o]) :
    o.orderStatus = OrderStatus.processing ∧
    o.deliveryStatus = DeliveryStatus.pending ∧
    o.paymentStatus = PaymentStatus.pending := by
  obtain ⟨d, hd⟩ := exists_orderData_of_acceptBid_ok p orders actingUserId bidId now dateStr
    op bp fail p' orders' fin h
  have hov : o = Order.create d := by
    have := ho.symm.trans hd
    simpa using List.append_cancel_left this
  subst hov
  exact ⟨rfl, rfl, rfl⟩

/-- Witness for `C8`: the order created in the spec scenario starts
`Processing` / `Pending` / `Pending`. -/
theorem new_order_default_statuses_witness :
    orderScenario.orderStatus = OrderStatus.processing ∧
    orderScenario.deliveryStatus = DeliveryStatus.pending ∧
    orderScenario.paymentStatus = PaymentStatus.pending :=
  new_order_default_statuses prodScenario [] 7 1 0 "20251011" profA profA none
    (acceptBid prodScenario [] 7 1 0 "20251011" profA profA none).1
    (acceptBid prodScenario [] 7 1 0 "20251011" profA profA none).2.1
    ⟨5500, 110, 5390⟩ orderScenario
    (by simp [acceptBid, prodScenario, bidScenario, markBid, Order.create, mkOrderNumber,
          pad4, round2]
        norm_num [round_eq])
    (by simp [acceptBid, prodScenario, bidScenario, markBid, Order.create, mkOrderNumber,
          pad4, round2, orderScenario, profA, addrA]
        norm_num [round_eq]
        rfl)

/-- Insertion preserves membership (used to trace `getMyWins` results back
to the query filter). -/
theorem mem_of_mem_insertBySoldAt (x y : Product) (l : List Product)
    (h : y ∈ insertBySoldAt x l) : y = x ∨ y ∈ l := by
  induction l with
  | nil => simpa [insertBySoldAt] using h
  | cons a l ih =>
    unfold insertBySoldAt at h
    split at h
    · rcases List.mem_cons.mp h with rfl | h'
      · exact Or.inl rfl
      · exact Or.inr h'
    · rcases List.mem_cons.mp h with rfl | h'
      · exact Or.inr (List.mem_cons_self _ _)
      · rcases ih h' with rfl | h''
        · exact Or.inl rfl
        · exact Or.inr (List.mem_cons_of_mem _ h'')

/-- Sorting by `soldAt` preserves membership. -/
theorem mem_of_mem_sortBySoldAtDesc (y : Product) (l : List Product)
    (h : y ∈ sortBySoldAtDesc l) : y ∈ l := by
  induction l with
  | nil => exact h
  | cons a l ih =>
    rcases mem_of_mem_insertBySoldAt a y (sortBySoldAtDesc l) h with rfl | h'
    · exact List.mem_cons_self _ _
    · exact List.mem_cons_of_mem _ (ih h')

/-- `C9`: every product returned by `getMyWins` has status `sold` — the
query filter is `{ bidWinner.user: userId, status: 'sold' }` — so a listing
settled as `purchased` (buy direction) never appears, whatever the
pagination parameters. -/
theorem getMyWins_only_sold (products : List Product) (userId page limit : Nat)
    (q : Product) (hq : q ∈ getMyWins products userId page limit) :
    q.status = ProductStatus.sold ∧ q.status ≠ ProductStatus.purchased := by
  unfold getMyWins at hq
  have h1 := List.mem_of_mem_take hq
  have h2 := List.mem_of_mem_drop h1
  have h3 := mem_of_mem_sortBySoldAtDesc q _ h2
  have h4 := (List.mem_filter.mp h3).2
  have h5 : q.status = ProductStatus.sold := by
    have := (Bool.and_eq_true _ _).mp h4
    exact of_decide_eq_true this.2
  refine ⟨h5, ?_⟩
  rw [h5]
  intro hcontra
  exact ProductStatus.noConfusion hcontra

/-- A settled sell listing won by user 2. -/
def prodWonSold : Product := ⟨17, "jute", 4, 3, [], 7, .sell, .sold, some ⟨2, 5, 1⟩, some 1, 0⟩

/-- Witness for `C9`: user 2's win list on a store holding their settled
sell listing contains that listing, and the theorem yields its status. -/
theorem getMyWins_only_sold_witness :
    prodWonSold.status = ProductStatus.sold ∧
    prodWonSold.status ≠ ProductStatus.purchased :=
  getMyWins_only_sold [prodWonSold] 2 1 10 prodWonSold (by decide)

end AnnaNewa
